import Mathlib

/-
Verification of the marble reactive dispatch layer.

The development shallowly embeds three source files:
  * src/packages/core/src/listener/http.listener.ts  (httpListener / httpServer)
  * src/unnamed/part_000                              (webSocketListener)
  * src/packages/middleware-multipart/src/multipart.parser.field.ts (parseField)

Stateful reactive code is embedded as explicit state passing: each listener
step is a function from its state to the successor state paired with the
list of observable actions it performs, in order.
-/

/- ===================== HTTP listener (http.listener.ts) ===================== -/

/-- An incoming HTTP request: the fields the listener inspects. -/
structure HttpRequest where
  method : String
  url : String
deriving DecidableEq, Repr

/-- HttpStatus.NOT_FOUND from the core http interface. -/
def HttpStatus.NOT_FOUND : Nat := 404

/-- Observable actions of one httpServer call, in execution order.
`attachSend` is the assignment of the send capability to the response object
(marbleRes.send = handleResponse ...); `attachResponse` is the back-reference
assignment marbleReq.response = marbleRes; `routedNext req` is subject.next
on the subject returned by resolve; `outputNext req status` is
outputSubject.next of the given request/status pair.

Modelled from the spec: resolveRouting (router.resolver.v2, not under src/)
returns a per-route subject whose consumers are the combined middleware chain
feeding the matched effect, and an outputSubject that is the post-effect
output stage; hence the middleware chain and the routed effects run only when
`routedNext` occurs, never from `outputNext`. -/
inductive HttpAction where
  | attachSend
  | attachResponse
  | routedNext (req : HttpRequest)
  | outputNext (req : HttpRequest) (status : Nat)
deriving DecidableEq, Repr

/-- The per-request handler httpServer from http.listener.ts (lines 47-61):
attaches send and the response back-reference, then resolves the request and
either pushes the request into the resolved subject or pushes a NOT_FOUND
event into the output subject. `resolve` abstracts the routing resolver;
`some id` is a resolved routed subject, `none` is an unresolved route. -/
def httpServer (resolve : HttpRequest → Option Nat) (req : HttpRequest) : List HttpAction :=
  [HttpAction.attachSend, HttpAction.attachResponse] ++
    match resolve req with
    | some _ => [HttpAction.routedNext req]
    | none => [HttpAction.outputNext req HttpStatus.NOT_FOUND]

/-- Recognizes the push of a NOT_FOUND event into the output subject. -/
def HttpAction.isOutputNotFound : HttpAction → Bool
  | HttpAction.outputNext _ s => s == HttpStatus.NOT_FOUND
  | _ => false

/-- Recognizes a push into a routed subject (the middleware+effect entry). -/
def HttpAction.isRouted : HttpAction → Bool
  | HttpAction.routedNext _ => true
  | _ => false

/- ============ multipart field parser (multipart.parser.field.ts) ============ -/

/-- A request body: a JS object mapping field names to values, embedded
extensionally as a partial map. -/
abbrev RequestBody := String → Option String

/-- The empty JS object used when req.body is still undefined. -/
def emptyBody : RequestBody := fun _ => none

/-- Object spread update: all keys of `body` keep their values except `k`,
which now maps to `v` (the JS expression spreading body and then binding k). -/
def setField (body : RequestBody) (k v : String) : RequestBody :=
  fun q => if q = k then some v else body q

/-- The mutable request object flowing through parseField: an object identity
(so that reference equality of emissions is expressible) plus an optional
body (undefined before the first field arrives). -/
structure MultipartRequest where
  objId : Nat
  body : Option RequestBody

/-- One multipart field tuple (fieldname, value, isFile, isTruncated,
mimeType, encoding) as delivered by the field stream. -/
structure FieldEvent where
  fieldname : String
  value : String
  isFile : Bool
  isTruncated : Bool
  mimeType : String
  encoding : String

/-- The tap of parseField on one field event: req.body becomes the spread of
the previous body (or the empty object when undefined) with fieldname bound
to value; the object identity is unchanged (in-place mutation). -/
def parseFieldStep (req : MultipartRequest) (e : FieldEvent) : MultipartRequest :=
  { req with body := some (setField (req.body.getD emptyBody) e.fieldname e.value) }

/-- takeUntil(finish$): the prefix of the field stream delivered before the
completion signal fires (`some n` means finish$ emits after n field events;
`none` means the field stream completes on its own). -/
def deliveredEvents (fieldEvents : List FieldEvent) (finishAfter : Option Nat) :
    List FieldEvent :=
  match finishAfter with
  | some n => fieldEvents.take n
  | none => fieldEvents

/-- parseField from multipart.parser.field.ts: the delivered events mutate
req.body in arrival order (tap), each delivered event emits the request
object downstream (mapTo req), and an empty delivered stream still emits the
request once (defaultIfEmpty req). The second component is the list of
object identities emitted downstream. -/
def parseField (req : MultipartRequest) (fieldEvents : List FieldEvent)
    (finishAfter : Option Nat) : MultipartRequest × List Nat :=
  (List.foldl parseFieldStep req (deliveredEvents fieldEvents finishAfter),
    if (deliveredEvents fieldEvents finishAfter).isEmpty then [req.objId]
    else (deliveredEvents fieldEvents finishAfter).map fun _ => req.objId)

/-- The value of the last delivered field event carrying the given name. -/
def lastFieldValue : List FieldEvent → String → Option String
  | [], _ => none
  | e :: rest, k =>
    match lastFieldValue rest k with
    | some v => some v
    | none => if e.fieldname = k then some e.value else none

/- ============ WebSocket listener (src/unnamed/part_000) ============ -/

/-- A raw inbound WebSocket frame (WebSocketData). -/
abbrev WsFrame := String

/-- A decoded transport-agnostic event. -/
abbrev WsEvent := String

/-- An error raised inside a pipeline stage. -/
abbrev WsError := String

/-- The pipeline stages fixed per listener in webSocketListener: the
transformer decode applied by map over the incoming event subject, the
combined middlewares, the combined effects and the output effect, each as a
per-event transformation that either yields the next event or errors the
subscription. -/
structure WsPipelines where
  decode : WsFrame → Except WsError WsEvent
  middlewares : WsEvent → Except WsError WsEvent
  effects : WsEvent → Except WsError WsEvent
  output : WsEvent → Except WsError WsEvent

/-- Which observable the effects subscription was created on: the initial
subscription is on effectsOutput$ (output$ applied to effects$), while the
resubscription inside onMessage is on effects$ alone. -/
inductive EffectsTarget where
  | withOutput
  | effectsOnly
deriving DecidableEq, Repr

/-- The per-connection mutable state of handleMessage: whether each of the
two subscriptions is closed, which observable the current effects
subscription consumes, and whether the message listener is still attached. -/
structure ConnState where
  mwClosed : Bool
  efClosed : Bool
  efTarget : EffectsTarget
  listening : Bool
deriving DecidableEq, Repr

/-- The state right after handleMessage ran for a fresh connection: both
subscriptions open (middlewaresSub on middlewares$, effectsSub on
effectsOutput$) and the message listener attached. -/
def initialConnState : ConnState :=
  { mwClosed := false, efClosed := false
    efTarget := EffectsTarget.withOutput, listening := true }

/-- Observable actions of the connection lifecycle, in execution order. -/
inductive WsAction where
  | resubMiddlewares
  | resubEffects (t : EffectsTarget)
  | forwardFrame (f : WsFrame)
  | sendResponse (e : WsEvent)
  | effectsError (e : WsError)
  | removedListener
  | unsubMiddlewares
  | unsubEffects
deriving DecidableEq, Repr

/-- Recognizes a call of handleEffectsError (the Error Provider entry). -/
def WsAction.isErrorAction : WsAction → Bool
  | WsAction.effectsError _ => true
  | _ => false

/-- Recognizes the creation of a fresh subscription inside onMessage. -/
def WsAction.isResub : WsAction → Bool
  | WsAction.resubMiddlewares => true
  | WsAction.resubEffects _ => true
  | _ => false

/-- What the current effects subscription consumes for one event pushed into
eventSubject$: on effects$ alone it is the combined effects; on
effectsOutput$ it is the combined effects piped into output$. -/
def runEffectsChain (P : WsPipelines) (t : EffectsTarget) (ev : WsEvent) :
    Except WsError WsEvent :=
  match t with
  | EffectsTarget.effectsOnly => P.effects ev
  | EffectsTarget.withOutput => (P.effects ev).bind P.output

/-- eventSubject$.next ev as observed by the effects subscription created in
subscribeEffects: when the subscription is closed the event is dropped;
otherwise a successful chain run calls client.sendResponse and an error is
routed to handleEffectsError, closing the subscription. -/
def deliverToEffects (P : WsPipelines) (s : ConnState) (ev : WsEvent) :
    ConnState × List WsAction :=
  if s.efClosed then (s, [])
  else
    match runEffectsChain P s.efTarget ev with
    | Except.ok out => (s, [WsAction.sendResponse out])
    | Except.error e => ({ s with efClosed := true }, [WsAction.effectsError e])

/-- incomingEventSubject$.next as observed by the middleware subscription
created in subscribeMiddlewares: when closed the frame is dropped; a
successful decode+middleware run pushes the event into eventSubject$ and an
error is routed to handleEffectsError, closing the subscription. -/
def deliverFrame (P : WsPipelines) (s : ConnState) (f : WsFrame) :
    ConnState × List WsAction :=
  if s.mwClosed then (s, [])
  else
    match (P.decode f).bind P.middlewares with
    | Except.ok ev => deliverToEffects P s ev
    | Except.error e => ({ s with mwClosed := true }, [WsAction.effectsError e])

/-- onMessage from handleMessage (part_000 lines 74-78): when the middleware
subscription is closed it is recreated on middlewares$, when the effects
subscription is closed it is recreated on effects$ (not on effectsOutput$),
and only then is the frame forwarded into incomingEventSubject$. -/
def onMessage (P : WsPipelines) (s : ConnState) (f : WsFrame) :
    ConnState × List WsAction :=
  let resubMw :=
    if s.mwClosed then ({ s with mwClosed := false }, [WsAction.resubMiddlewares])
    else (s, ([] : List WsAction))
  let resubEf :=
    if resubMw.1.efClosed then
      ({ resubMw.1 with efClosed := false, efTarget := EffectsTarget.effectsOnly },
        [WsAction.resubEffects EffectsTarget.effectsOnly])
    else (resubMw.1, ([] : List WsAction))
  let delivered := deliverFrame P resubEf.1 f
  (delivered.1, resubMw.2 ++ resubEf.2 ++ WsAction.forwardFrame f :: delivered.2)

/-- onClose from handleMessage (part_000 lines 80-84): detaches the message
listener from the client and unsubscribes both subscriptions. -/
def onClose (s : ConnState) : ConnState × List WsAction :=
  ({ s with listening := false, mwClosed := true, efClosed := true },
    [WsAction.removedListener, WsAction.unsubMiddlewares, WsAction.unsubEffects])

/-- A frame arriving on the socket: the onMessage handler runs only while it
is attached as the message listener of the client. -/
def arriveFrame (P : WsPipelines) (s : ConnState) (f : WsFrame) :
    ConnState × List WsAction :=
  if s.listening then onMessage P s f else (s, [])

/-- The server-wide view for connection isolation: handleMessage builds a
fresh eventSubject$, incomingEventSubject$, effect context and subscription
pair per client, so the server state is one independent ConnState per client
identity, and a frame on one client steps only that entry. `P c` is the
pipeline pair as instantiated with the effect context of client c. -/
def serverStep (P : Nat → WsPipelines) (conns : Nat → ConnState) (c : Nat)
    (f : WsFrame) : (Nat → ConnState) × List WsAction :=
  (Function.update conns c (arriveFrame (P c) (conns c) f).1,
    (arriveFrame (P c) (conns c) f).2)

/- ============ WebSocket upgrade verification (verifyClient) ============ -/

/-- JS values as far as truthiness is concerned; `reqObject` is the upgrade
request object emitted by the admission stream. -/
inductive JsValue where
  | undef
  | nullv
  | boolean (b : Bool)
  | number (n : Int)
  | strv (s : String)
  | reqObject (reqId : Nat)
deriving DecidableEq, Repr

/-- The JS Boolean conversion applied by map(Boolean). -/
def jsBoolean : JsValue → Bool
  | JsValue.undef => false
  | JsValue.nullv => false
  | JsValue.boolean b => b
  | JsValue.number n => decide (n ≠ 0)
  | JsValue.strv s => decide (s ≠ "")
  | JsValue.reqObject _ => true

/-- A WebSocketConnectionError carrying a rejection status and message. -/
structure WebSocketConnectionError where
  status : Nat
  message : String
deriving DecidableEq, Repr

/-- The arguments verifyClient passes to its continuation callback. -/
structure VerifyResult where
  accepted : Bool
  status : Option Nat
  message : Option String
deriving DecidableEq, Repr

/-- verifyClient from part_000 (lines 101-108): the admission effect
connection$ receives the upgrade request as a single-event stream and
resolves to a value or errors; the value is mapped through Boolean and the
callback is invoked with it alone (status and message left undefined), while
an error invokes the callback with false and the status and message of the
error. -/
def verifyClient (connectionEffect : Nat → Except WebSocketConnectionError JsValue)
    (reqId : Nat) : VerifyResult :=
  match connectionEffect reqId with
  | Except.ok v => { accepted := jsBoolean v, status := none, message := none }
  | Except.error e =>
    { accepted := false, status := some e.status, message := some e.message }

/-- The default connection$ of webSocketListener (line 41): the identity over
the single-event request stream, so the emitted value is the request object
itself. -/
def defaultConnection (reqId : Nat) : Except WebSocketConnectionError JsValue :=
  Except.ok (JsValue.reqObject reqId)

/- ===================== Claim theorems ===================== -/

/-- C1: for every incoming request whose method and path do not resolve
against the routing tree, httpServer pushes exactly one NOT_FOUND event
directly into the output subject and never pushes into a routed subject, so
the combined middleware chain and the registered effects are not invoked for
that request. -/
theorem C1_unresolved_short_circuit (resolve : HttpRequest → Option Nat)
    (req : HttpRequest) (h : resolve req = none) :
    (httpServer resolve req).filter HttpAction.isOutputNotFound
      = [HttpAction.outputNext req HttpStatus.NOT_FOUND]
    ∧ (httpServer resolve req).filter HttpAction.isRouted = [] := by
  constructor <;>
    simp [httpServer, h, HttpAction.isOutputNotFound, HttpAction.isRouted]

/-- A resolver with no registered route matching any request. -/
def resolveNothing : HttpRequest → Option Nat := fun _ => none

/-- Witness for C1 at a concrete unresolved request. -/
theorem C1_unresolved_short_circuit_witness :
    (httpServer resolveNothing { method := "GET", url := "/missing" }).filter
        HttpAction.isOutputNotFound
      = [HttpAction.outputNext { method := "GET", url := "/missing" } HttpStatus.NOT_FOUND]
    ∧ (httpServer resolveNothing { method := "GET", url := "/missing" }).filter
        HttpAction.isRouted = [] :=
  C1_unresolved_short_circuit resolveNothing { method := "GET", url := "/missing" } rfl

/-- C7: on every httpServer call the send capability is attached to the
response and the response back-reference is attached to the request, as the
first two actions, before any routing outcome is acted on and regardless of
whether the route resolves. -/
theorem C7_send_attached_before_resolution (resolve : HttpRequest → Option Nat)
    (req : HttpRequest) :
    (httpServer resolve req).take 2 = [HttpAction.attachSend, HttpAction.attachResponse]
    ∧ HttpAction.attachSend ∈ httpServer resolve req
    ∧ HttpAction.attachResponse ∈ httpServer resolve req := by
  cases h : resolve req <;> simp [httpServer, h]

/-- C3: the admission gate of verifyClient: a falsy resolution invokes the
callback with accepted false and no status or message; an error invokes the
callback with accepted false and the status and message of the connection
error; a truthy resolution invokes the callback with accepted true. -/
theorem C3_admission_gate (connectionEffect : Nat → Except WebSocketConnectionError JsValue)
    (reqId : Nat) :
    (∀ v, connectionEffect reqId = Except.ok v → jsBoolean v = false →
      verifyClient connectionEffect reqId
        = { accepted := false, status := none, message := none })
    ∧ (∀ e, connectionEffect reqId = Except.error e →
      verifyClient connectionEffect reqId
        = { accepted := false, status := some e.status, message := some e.message })
    ∧ (∀ v, connectionEffect reqId = Except.ok v → jsBoolean v = true →
      (verifyClient connectionEffect reqId).accepted = true) := by
  refine ⟨?_, ?_, ?_⟩
  · intro v hv hb
    simp [verifyClient, hv, hb]
  · intro e hee
    simp [verifyClient, hee]
  · intro v hv hb
    simp [verifyClient, hv, hb]

/-- An admission effect resolving to a falsy value for every request. -/
def connFalsy : Nat → Except WebSocketConnectionError JsValue :=
  fun _ => Except.ok JsValue.nullv

/-- Witness for C3: a falsy admission resolution at a concrete request gives
the default rejection. -/
theorem C3_admission_gate_witness :
    verifyClient connFalsy 0 = { accepted := false, status := none, message := none } :=
  (C3_admission_gate connFalsy 0).1 JsValue.nullv rfl rfl

/-- C9: with no connection$ configured, the default admission effect is the
identity over the single-event request stream, the request object is truthy
under the Boolean map, and the callback is invoked with accepted true. -/
theorem C9_default_connection_accepts (reqId : Nat) :
    jsBoolean (JsValue.reqObject reqId) = true
    ∧ verifyClient defaultConnection reqId
      = { accepted := true, status := none, message := none } :=
  ⟨rfl, rfl⟩

/-- C6: on socket close the message listener is detached and both
subscriptions are unsubscribed, and any frame arriving afterwards is not
forwarded into either pipeline and changes nothing. -/
theorem C6_close_releases_pipelines (P : WsPipelines) (s : ConnState) (f : WsFrame) :
    (onClose s).2
      = [WsAction.removedListener, WsAction.unsubMiddlewares, WsAction.unsubEffects]
    ∧ (onClose s).1.listening = false
    ∧ (onClose s).1.mwClosed = true
    ∧ (onClose s).1.efClosed = true
    ∧ arriveFrame P (onClose s).1 f = ((onClose s).1, []) := by
  refine ⟨rfl, rfl, rfl, rfl, ?_⟩
  simp [arriveFrame, onClose]

/-- C5: a frame processed on one connection, whatever it does there
(including a pipeline error), leaves the state of every other connection
unchanged: the per-connection states are independent. -/
theorem C5_connection_isolation (P : Nat → WsPipelines) (conns : Nat → ConnState)
    (c cb : Nat) (f : WsFrame) (h : c ≠ cb) :
    (serverStep P conns c f).1 cb = conns cb := by
  simp [serverStep, Function.update_noteq (Ne.symm h)]

/-- Identity pipelines whose combined middleware errors on every event. -/
def wsPerr : WsPipelines :=
  { decode := fun f => Except.ok f
    middlewares := fun _ => Except.error "boom"
    effects := fun e => Except.ok e
    output := fun e => Except.ok (e ++ "!") }

/-- Witness for C5: an erroring frame on connection 0 leaves connection 1
untouched. -/
theorem C5_connection_isolation_witness :
    (serverStep (fun _ => wsPerr) (fun _ => initialConnState) 0 "x").1 1
      = initialConnState :=
  C5_connection_isolation (fun _ => wsPerr) (fun _ => initialConnState) 0 1 "x" (by decide)

/-- The resubscription behavior the specification words describe, written for
comparison with onMessage: here the re-created outbound pipeline again
comprises the combined effects followed by the output transformer, that is a
fresh subscription of effectsOutput$ instead of effects$. -/
def onMessageSpecResub (P : WsPipelines) (s : ConnState) (f : WsFrame) :
    ConnState × List WsAction :=
  let resubMw :=
    if s.mwClosed then ({ s with mwClosed := false }, [WsAction.resubMiddlewares])
    else (s, ([] : List WsAction))
  let resubEf :=
    if resubMw.1.efClosed then
      ({ resubMw.1 with efClosed := false, efTarget := EffectsTarget.withOutput },
        [WsAction.resubEffects EffectsTarget.withOutput])
    else (resubMw.1, ([] : List WsAction))
  let delivered := deliverFrame P resubEf.1 f
  (delivered.1, resubMw.2 ++ resubEf.2 ++ WsAction.forwardFrame f :: delivered.2)

/-- Identity stages with an output transformer that marks events, making the
presence or absence of the output stage observable in sendResponse. -/
def wsPmark : WsPipelines :=
  { decode := fun f => Except.ok f
    middlewares := fun e => Except.ok e
    effects := fun e => Except.ok e
    output := fun e => Except.ok (e ++ "!") }

/-- A connection whose effects subscription has terminated (for example after
a pipeline error) while the middleware subscription is still open. -/
def wsEfClosed : ConnState :=
  { mwClosed := false, efClosed := true
    efTarget := EffectsTarget.withOutput, listening := true }

/-- A connection on which both subscriptions have terminated. -/
def wsBothClosed : ConnState :=
  { mwClosed := true, efClosed := true
    efTarget := EffectsTarget.withOutput, listening := true }

/-- Counterexample to C2 as stated: on a connection whose effects
subscription is closed, the next frame does trigger exactly one
resubscription, but the re-created outbound subscription consumes the
combined effects alone, so sendResponse receives the untransformed event
where the claimed pipeline (effects followed by the output transformer)
would have sent the marked one. -/
theorem C2_resubscription_counterexample :
    (onMessage wsPmark wsEfClosed "x").2
      = [WsAction.resubEffects EffectsTarget.effectsOnly, WsAction.forwardFrame "x",
          WsAction.sendResponse "x"]
    ∧ (onMessageSpecResub wsPmark wsEfClosed "x").2
      = [WsAction.resubEffects EffectsTarget.withOutput, WsAction.forwardFrame "x",
          WsAction.sendResponse "x!"]
    ∧ (onMessage wsPmark wsEfClosed "x").2 ≠ (onMessageSpecResub wsPmark wsEfClosed "x").2 := by
  refine ⟨rfl, rfl, by decide⟩

/-- C2 (amended): on arrival of a new inbound frame, in every connection
state, each of the two pipelines is checked: for each pipeline whose
subscription has terminated, exactly one fresh subscription is created —
middlewares first, then effects — before the frame is forwarded into the
incoming event subject, and a pipeline whose subscription is still open is
not resubscribed. The re-created outbound subscription consumes the combined
effects only — the output transformer is not part of the re-created
pipeline — and writes via sendResponse, so delivery of the forwarded frame
runs the combined effects alone whenever the outbound pipeline was just
re-created. -/
theorem C2_resubscription (P : WsPipelines) (s : ConnState) (f : WsFrame) :
    (onMessage P s f).2
      = (if s.mwClosed then [WsAction.resubMiddlewares] else [])
        ++ (if s.efClosed then [WsAction.resubEffects EffectsTarget.effectsOnly] else [])
        ++ WsAction.forwardFrame f ::
          (match (P.decode f).bind P.middlewares with
            | Except.error e => [WsAction.effectsError e]
            | Except.ok ev =>
              match runEffectsChain P
                  (if s.efClosed then EffectsTarget.effectsOnly else s.efTarget) ev with
              | Except.ok out => [WsAction.sendResponse out]
              | Except.error e => [WsAction.effectsError e])
    ∧ (onMessage P s f).1.efTarget
        = (if s.efClosed then EffectsTarget.effectsOnly else s.efTarget) := by
  have key : ∀ t : ConnState, t.mwClosed = false → t.efClosed = false →
      ((deliverFrame P t f).2
        = (match (P.decode f).bind P.middlewares with
            | Except.error e => [WsAction.effectsError e]
            | Except.ok ev =>
              match runEffectsChain P t.efTarget ev with
              | Except.ok out => [WsAction.sendResponse out]
              | Except.error e => [WsAction.effectsError e]))
      ∧ (deliverFrame P t f).1.efTarget = t.efTarget := by
    intro t hm he
    cases hd : (P.decode f).bind P.middlewares with
    | ok ev =>
      cases hre : runEffectsChain P t.efTarget ev <;>
        simp [deliverFrame, deliverToEffects, hm, he, hd, hre]
    | error e =>
      simp [deliverFrame, hm, hd]
  cases hm : s.mwClosed <;> cases he : s.efClosed
  · exact ⟨by simp [onMessage, hm, he, (key s hm he).1],
      by simp [onMessage, hm, he, (key s hm he).2]⟩
  · constructor
    · simp [onMessage, hm, he]
      exact (key (ConnState.mk false false EffectsTarget.effectsOnly s.listening) rfl rfl).1
    · simp [onMessage, hm, he]
      exact (key (ConnState.mk false false EffectsTarget.effectsOnly s.listening) rfl rfl).2
  · constructor
    · simp [onMessage, hm, he]
      exact (key (ConnState.mk false false s.efTarget s.listening) rfl rfl).1
    · simp [onMessage, hm, he]
      exact (key (ConnState.mk false false s.efTarget s.listening) rfl rfl).2
  · constructor
    · simp [onMessage, hm, he]
      exact (key (ConnState.mk false false EffectsTarget.effectsOnly s.listening) rfl rfl).1
    · simp [onMessage, hm, he]
      exact (key (ConnState.mk false false EffectsTarget.effectsOnly s.listening) rfl rfl).2

/-- Witness for the amended C2 at the state the spec is centrally about:
only the effects subscription has terminated; the next frame triggers
exactly one resubscription before being forwarded, and delivery runs the
combined effects alone. -/
theorem C2_resubscription_witness :
    (onMessage wsPmark wsEfClosed "x").2
      = [WsAction.resubEffects EffectsTarget.effectsOnly, WsAction.forwardFrame "x",
          WsAction.sendResponse "x"]
    ∧ (onMessage wsPmark wsEfClosed "x").1.efTarget = EffectsTarget.effectsOnly := by
  have h := C2_resubscription wsPmark wsEfClosed "x"
  refine ⟨?_, ?_⟩
  · rw [h.1]
    rfl
  · rw [h.2]
    rfl

/-- C4: when a middleware or effects pipeline stage errors on an active
connection, the error is routed exactly once to handleEffectsError with the
provided error effect, exactly the erroring subscription becomes closed, the
connection stays open (the listener is not detached and no unsubscription
happens), and the next frame triggers a resubscription of the closed
pipeline. -/
theorem C4_pipeline_error_routed (P : WsPipelines) (s : ConnState) (f : WsFrame)
    (e : WsError)
    (hm : s.mwClosed = false) (he : s.efClosed = false) (hl : s.listening = true)
    (herr : ((P.decode f).bind P.middlewares).bind (runEffectsChain P s.efTarget)
      = Except.error e) :
    (onMessage P s f).2.filter WsAction.isErrorAction = [WsAction.effectsError e]
    ∧ ((onMessage P s f).1.mwClosed = true ∧ (onMessage P s f).1.efClosed = false
        ∨ (onMessage P s f).1.mwClosed = false ∧ (onMessage P s f).1.efClosed = true)
    ∧ (onMessage P s f).1.listening = true
    ∧ WsAction.removedListener ∉ (onMessage P s f).2
    ∧ WsAction.unsubMiddlewares ∉ (onMessage P s f).2
    ∧ WsAction.unsubEffects ∉ (onMessage P s f).2
    ∧ (WsAction.resubMiddlewares ∈ (onMessage P (onMessage P s f).1 f).2
        ∨ WsAction.resubEffects EffectsTarget.effectsOnly
            ∈ (onMessage P (onMessage P s f).1 f).2) := by
  cases hd : (P.decode f).bind P.middlewares with
  | error e0 =>
    have he0 : e0 = e := by
      rw [hd] at herr
      simpa [Except.bind] using herr
    subst he0
    have hstep : onMessage P s f
        = ({ s with mwClosed := true },
            [WsAction.forwardFrame f, WsAction.effectsError e0]) := by
      simp [onMessage, hm, he, deliverFrame, hd]
    rw [hstep]
    refine ⟨by simp [WsAction.isErrorAction], Or.inl ⟨rfl, he⟩, hl, by simp, by simp,
      by simp, Or.inl ?_⟩
    simp [onMessage, he]
  | ok ev =>
    have herr2 : runEffectsChain P s.efTarget ev = Except.error e := by
      rw [hd] at herr
      simpa [Except.bind] using herr
    have hstep : onMessage P s f
        = ({ s with efClosed := true },
            [WsAction.forwardFrame f, WsAction.effectsError e]) := by
      simp [onMessage, hm, he, deliverFrame, hd, deliverToEffects, herr2]
    rw [hstep]
    refine ⟨by simp [WsAction.isErrorAction], Or.inr ⟨hm, rfl⟩, hl, by simp, by simp,
      by simp, Or.inr ?_⟩
    simp [onMessage, hm]

/-- Witness for C4: the erroring middleware pipeline routes its error once
and leaves the connection listening. -/
theorem C4_pipeline_error_routed_witness :
    (onMessage wsPerr initialConnState "x").2.filter WsAction.isErrorAction
      = [WsAction.effectsError "boom"]
    ∧ (onMessage wsPerr initialConnState "x").1.listening = true :=
  ⟨(C4_pipeline_error_routed wsPerr initialConnState "x" "boom" rfl rfl rfl rfl).1,
    (C4_pipeline_error_routed wsPerr initialConnState "x" "boom" rfl rfl rfl rfl).2.2.1⟩

/-- The body after folding parseFieldStep over delivered events maps a key to
the value of its last delivered event, and keeps its previous value when no
delivered event carries it. -/
theorem foldl_parseFieldStep_body (events : List FieldEvent) (req : MultipartRequest)
    (k : String) :
    ((List.foldl parseFieldStep req events).body.getD emptyBody) k
      = match lastFieldValue events k with
        | some v => some v
        | none => (req.body.getD emptyBody) k := by
  induction events generalizing req with
  | nil => rfl
  | cons e rest ih =>
    rw [List.foldl_cons, ih]
    cases hrest : lastFieldValue rest k with
    | some v => simp [lastFieldValue, hrest]
    | none =>
      by_cases hk : e.fieldname = k
      · subst hk
        simp [lastFieldValue, hrest, parseFieldStep, setField]
      · simp [lastFieldValue, hrest, hk, parseFieldStep, setField, Ne.symm hk]

/-- Folding parseFieldStep never changes the object identity of the request. -/
theorem foldl_parseFieldStep_objId (events : List FieldEvent) (req : MultipartRequest) :
    (List.foldl parseFieldStep req events).objId = req.objId := by
  induction events generalizing req with
  | nil => rfl
  | cons e rest ih => exact (ih (parseFieldStep req e)).trans rfl

/-- C8: parseField accumulates each delivered named field into the request
body (the final body maps each received field name to its value, the last
one received for that name); when no field is delivered — the field stream
is empty or the completion signal fires before any field — the request is
produced unchanged, exactly once (defaultIfEmpty); and in every case at
least one value is produced downstream and every produced value is the
request object that was passed in. -/
theorem C8_field_accumulation (req : MultipartRequest) (fieldEvents : List FieldEvent)
    (finishAfter : Option Nat) :
    (∀ k v, lastFieldValue (deliveredEvents fieldEvents finishAfter) k = some v →
      ((parseField req fieldEvents finishAfter).1.body.getD emptyBody) k = some v)
    ∧ (deliveredEvents fieldEvents finishAfter = [] →
        parseField req fieldEvents finishAfter = (req, [req.objId]))
    ∧ (parseField req fieldEvents finishAfter).2 ≠ []
    ∧ ∀ i ∈ (parseField req fieldEvents finishAfter).2, i = req.objId := by
  refine ⟨?_, ?_, ?_, ?_⟩
  · intro k v hv
    have h := foldl_parseFieldStep_body (deliveredEvents fieldEvents finishAfter) req k
    rw [hv] at h
    exact h
  · intro hnil
    simp [parseField, hnil]
  · by_cases hemp : (deliveredEvents fieldEvents finishAfter).isEmpty
    · simp [parseField, hemp]
    · have hne : deliveredEvents fieldEvents finishAfter ≠ [] := by
        simpa [List.isEmpty_iff] using hemp
      have hempf : (deliveredEvents fieldEvents finishAfter).isEmpty = false := by
        simpa [List.isEmpty_iff] using hne
      simp [parseField, hempf, hne]
  · intro i hi
    by_cases hemp : (deliveredEvents fieldEvents finishAfter).isEmpty <;>
      simp [parseField, hemp] at hi <;> simp [hi]

/-- A concrete field tuple. -/
def fieldEv (k v : String) : FieldEvent :=
  { fieldname := k, value := v, isFile := false, isTruncated := false
    mimeType := "text/plain", encoding := "utf8" }

/-- A concrete multipart request with an undefined body. -/
def mpReq : MultipartRequest := { objId := 7, body := none }

/-- Witness for C8: two fields of the same name with the later value winning,
and a run in which the completion signal fires before any field, producing
the unchanged request exactly once. -/
theorem C8_field_accumulation_witness :
    ((parseField mpReq [fieldEv "a" "1", fieldEv "a" "2"] none).1.body.getD emptyBody) "a"
      = some "2"
    ∧ parseField mpReq [fieldEv "a" "1"] (some 0) = (mpReq, [mpReq.objId]) :=
  ⟨(C8_field_accumulation mpReq [fieldEv "a" "1", fieldEv "a" "2"] none).1 "a" "2" rfl,
    (C8_field_accumulation mpReq [fieldEv "a" "1"] (some 0)).2.1 rfl⟩

/-- C10: processing one field event binds exactly that field name to the
event value in the request body, leaves every other key at its previous
value, keeps the object identity of the request, and the value emitted
downstream for the event is the request object that was passed in. -/
theorem C10_single_field_effect (req : MultipartRequest) (e : FieldEvent) (k : String)
    (hk : k ≠ e.fieldname) :
    ((parseFieldStep req e).body.getD emptyBody) e.fieldname = some e.value
    ∧ ((parseFieldStep req e).body.getD emptyBody) k = (req.body.getD emptyBody) k
    ∧ (parseFieldStep req e).objId = req.objId
    ∧ (parseField req [e] none).2 = [req.objId] := by
  refine ⟨?_, ?_, rfl, rfl⟩
  · simp [parseFieldStep, setField]
  · simp [parseFieldStep, setField, hk]

/-- Witness for C10 at a concrete field event and a distinct other key. -/
theorem C10_single_field_effect_witness :
    ((parseFieldStep mpReq (fieldEv "a" "1")).body.getD emptyBody) "a" = some "1"
    ∧ ((parseFieldStep mpReq (fieldEv "a" "1")).body.getD emptyBody) "b"
        = (mpReq.body.getD emptyBody) "b"
    ∧ (parseFieldStep mpReq (fieldEv "a" "1")).objId = mpReq.objId
    ∧ (parseField mpReq [fieldEv "a" "1"] none).2 = [mpReq.objId] :=
  C10_single_field_effect mpReq (fieldEv "a" "1") "b" (by decide)
